import Mathlib

/-!
Verification development for the Pivott pipeline dashboard.

The repository fetches a Google-Sheets "gviz" payload, unwraps the JSONP
envelope (src/utils.ts, parseGoogleSheetsJSON), normalizes the parsed table
into typed dashboard structures (fetchData in src/App.tsx, with a stale
older copy of App.tsx at the repository root), and publishes the result
into a DashboardState.

This file shallowly embeds those functions:
- JSON cell values become the inductive JVal (JSON payloads cannot carry
  NaN/undefined, and the code treats null and undefined cells identically,
  so JVal.null covers both).
- The current normalizer (src/App.tsx, the file that actually resolves its
  ./utils and ./types imports) is embedded as normalizeSrc; the stale
  root-level App.tsx variant as normalizeRoot.
- JavaScript String(v) is embedded as jsString; for integral numbers it
  agrees with JS exactly, for non-integral rationals it prints num/den
  (the claims only use integral numbers and non-emptiness).
-/

/-- A JSON value as found in a sheet cell's `v` field.  `null` also stands
for an absent `v` property (both fail `typeof v === 'number'` and both
fail `v !== null && v !== undefined`). -/
inductive JVal where
  | num (q : ℚ)
  | str (s : String)
  | jbool (b : Bool)
  | null
deriving DecidableEq

/-- A `{v: ...}` cell object from the gviz table. -/
structure CellObj where
  v : JVal
deriving DecidableEq

/-- An entry of a row's `c` array: the literal `null` (or an out-of-range
index) is `none`. -/
abbrev Cell := Option CellObj

/-- A row object `{c: [...]}`; `c` may be absent or null. -/
structure RowObj where
  c : Option (List Cell)
deriving DecidableEq

/-- An entry of the `rows` array; a row may be the literal `null`. -/
abbrev Row := Option RowObj

/-- The `table` object `{rows: [...]}`; `rows` may be absent. -/
structure TableObj where
  rows : Option (List Row)
deriving DecidableEq

/-- The parsed gviz payload, as accessed by `rawData.table?.rows`. -/
structure RawData where
  table : Option TableObj
deriving DecidableEq

/-- Decimal digits of a natural number, with fuel (fuel `n+1` suffices for
input `n` since the argument shrinks by a factor of ten each step). -/
def natDigitsAux : ℕ → ℕ → List Char
  | 0, _ => []
  | fuel + 1, n =>
    if n < 10 then [Char.ofNat (48 + n)]
    else natDigitsAux fuel (n / 10) ++ [Char.ofNat (48 + n % 10)]

/-- Decimal string of a natural number. -/
def natToString (n : ℕ) : String := ⟨natDigitsAux (n + 1) n⟩

/-- Decimal string of an integer, as JavaScript prints integral numbers. -/
def intToString (i : ℤ) : String :=
  if i < 0 then ⟨'-' :: (natToString i.natAbs).data⟩ else natToString i.natAbs

/-- JavaScript `String(n)` for a number.  Integral values match JS output
exactly; non-integral rationals are printed as `num/den` (JS prints the
shortest decimal form of the underlying double — the difference is
irrelevant here because only integral labels and non-emptiness are used). -/
def jsNumToString (q : ℚ) : String :=
  if q.den = 1 then intToString q.num
  else intToString q.num ++ "/" ++ natToString q.den

/-- JavaScript `String(v)` for a cell value. -/
def jsString : JVal → String
  | .num q => jsNumToString q
  | .str s => s
  | .jbool b => cond b "true" "false"
  | .null => "null"

/-- JavaScript `Math.abs` on a (JSON-representable) number.  Stated with
`Rat.blt`, the Boolean comparison the order on `ℚ` is built from, so that
concrete values evaluate inside the kernel. -/
def jsAbs (q : ℚ) : ℚ := if Rat.blt q 0 then -q else q

/-- Indexing `cells[i]`: out-of-range indexing yields `undefined`, which the cell
accessors treat exactly like a `null` entry. -/
def cellAt (cells : List Cell) (i : ℕ) : Cell := cells.getD i none

/-- Embedding of `const getNum = (cell) => (cell && typeof cell.v === 'number') ? cell.v : 0;` -/
def getNum (cell : Cell) : ℚ :=
  match cell with
  | some ⟨.num q⟩ => q
  | _ => 0

/-- Embedding of `const getStr = (cell) => (cell && cell.v !== null && cell.v !== undefined) ? String(cell.v) : '';` -/
def getStr (cell : Cell) : String :=
  match cell with
  | some ⟨.null⟩ => ""
  | some ⟨v⟩ => jsString v
  | none => ""

/-- The access `rawData.table?.rows` — the rows array, when both accesses succeed. -/
def rowsOf (rd : RawData) : Option (List Row) := rd.table.bind (·.rows)

/-- Embedding of `const firstRowCells = rows[0]?.c || [];` -/
def firstRowCells (rows : List Row) : List Cell :=
  match rows.getD 0 none with
  | some r => r.c.getD []
  | none => []

/-- The access `row?.c` followed by the `if (!cells) return;` guard of the forEach body. -/
def rowCellsOpt (row : Row) : Option (List Cell) := row.bind (·.c)

/-- KPIData from src/types.ts. -/
structure KPIData where
  totalOpportunities : ℚ
  qualifiedConversations : ℚ
  convertedClients : ℚ
  conversionRate : ℚ
  totalRevenue : ℚ
  activeClientLoad : ℚ
deriving DecidableEq

/-- RevenueTrend from src/types.ts. -/
structure RevenueTrend where
  month : String
  revenue : ℚ
deriving DecidableEq

/-- WeeklyConversation from src/types.ts. -/
structure WeeklyConversation where
  week : String
  count : ℚ
deriving DecidableEq

/-- SourceConversion from src/types.ts (with the `revenue` attribution
field used by the current src/App.tsx). -/
structure SourceConversion where
  source : String
  qualified : ℚ
  converted : ℚ
  rate : ℚ
  revenue : ℚ
deriving DecidableEq

/-- The source-conversion record pushed by the stale root-level App.tsx,
which omits the `revenue` attribution field. -/
structure SourceConversionRoot where
  source : String
  qualified : ℚ
  converted : ℚ
  rate : ℚ
deriving DecidableEq

/-- The pipeline's error taxonomy: transport failure (`!response.ok`),
format failure (parseGoogleSheetsJSON throw), empty dataset
(`!rows || rows.length === 0`). -/
inductive PipeError where
  | transport
  | format
  | emptyDataset
deriving DecidableEq

/-- The data produced by one successful normalization pass of src/App.tsx. -/
structure NormResult where
  kpis : KPIData
  revenueTrend : List RevenueTrend
  weeklyConversations : List WeeklyConversation
  sourceConversions : List SourceConversion
deriving DecidableEq

/-- The data produced by one successful pass of the stale root App.tsx. -/
structure NormResultRoot where
  kpis : KPIData
  revenueTrend : List RevenueTrend
  weeklyConversations : List WeeklyConversation
  sourceConversions : List SourceConversionRoot
deriving DecidableEq

/-- Summary extraction of src/App.tsx (lines 135-142): offsets 0-4 with
`Math.abs` on the conversion rate, offset 14 with a `|| 1` fallback for
the active client load (`0 || 1` evaluates to `1` in JS). -/
def kpisOfSrc (fc : List Cell) : KPIData :=
  { totalOpportunities := getNum (cellAt fc 0)
    qualifiedConversations := getNum (cellAt fc 1)
    convertedClients := getNum (cellAt fc 2)
    conversionRate := jsAbs (getNum (cellAt fc 3))
    totalRevenue := getNum (cellAt fc 4)
    activeClientLoad := if getNum (cellAt fc 14) = 0 then 1 else getNum (cellAt fc 14) }

/-- Summary extraction of the stale root App.tsx (lines 102-109): no
`Math.abs`, active client load read from offset 13 with no fallback. -/
def kpisOfRoot (fc : List Cell) : KPIData :=
  { totalOpportunities := getNum (cellAt fc 0)
    qualifiedConversations := getNum (cellAt fc 1)
    convertedClients := getNum (cellAt fc 2)
    conversionRate := getNum (cellAt fc 3)
    totalRevenue := getNum (cellAt fc 4)
    activeClientLoad := getNum (cellAt fc 13) }

/-- The revenue-trend entry a row contributes (both variants):
`const month = getStr(cells[5]); const rev = cells[6]?.v;
if (month && typeof rev === 'number') revenueTrend.push({month, revenue: rev});` -/
def revenueEntryOf (row : Row) : Option RevenueTrend :=
  match rowCellsOpt row with
  | none => none
  | some cells =>
    match cellAt cells 6 with
    | some ⟨.num q⟩ =>
      if getStr (cellAt cells 5) = "" then none
      else some ⟨getStr (cellAt cells 5), q⟩
    | _ => none

/-- The weekly-conversation entry a row contributes (both variants):
label at offset 7, count at offset 8. -/
def weeklyEntryOf (row : Row) : Option WeeklyConversation :=
  match rowCellsOpt row with
  | none => none
  | some cells =>
    match cellAt cells 8 with
    | some ⟨.num q⟩ =>
      if getStr (cellAt cells 7) = "" then none
      else some ⟨getStr (cellAt cells 7), q⟩
    | _ => none

/-- The source-conversion entry a row contributes in src/App.tsx
(lines 160-172): name at 9, qualified 10, converted 11, rate 12 with
`Math.abs`, attributed revenue at 13. -/
def sourceEntryOfSrc (row : Row) : Option SourceConversion :=
  match rowCellsOpt row with
  | none => none
  | some cells =>
    match cellAt cells 12 with
    | some ⟨.num q⟩ =>
      if getStr (cellAt cells 9) = "" then none
      else some ⟨getStr (cellAt cells 9), getNum (cellAt cells 10),
                 getNum (cellAt cells 11), jsAbs q, getNum (cellAt cells 13)⟩
    | _ => none

/-- The source-conversion entry a row contributes in the stale root
App.tsx (lines 124-133): rate taken as-is, no revenue attribution. -/
def sourceEntryOfRoot (row : Row) : Option SourceConversionRoot :=
  match rowCellsOpt row with
  | none => none
  | some cells =>
    match cellAt cells 12 with
    | some ⟨.num q⟩ =>
      if getStr (cellAt cells 9) = "" then none
      else some ⟨getStr (cellAt cells 9), getNum (cellAt cells 10),
                 getNum (cellAt cells 11), q⟩
    | _ => none

/-- The normalization performed by fetchData in src/App.tsx on the parsed
payload: fail on `!rows || rows.length === 0`, then extract the summary
from row 0 and one optional entry per series from every row. -/
def normalizeSrc (rd : RawData) : Except PipeError NormResult :=
  match rowsOf rd with
  | none => .error .emptyDataset
  | some rows =>
    if rows.isEmpty then .error .emptyDataset
    else .ok
      { kpis := kpisOfSrc (firstRowCells rows)
        revenueTrend := rows.filterMap revenueEntryOf
        weeklyConversations := rows.filterMap weeklyEntryOf
        sourceConversions := rows.filterMap sourceEntryOfSrc }

/-- The normalization performed by fetchData in the stale root App.tsx. -/
def normalizeRoot (rd : RawData) : Except PipeError NormResultRoot :=
  match rowsOf rd with
  | none => .error .emptyDataset
  | some rows =>
    if rows.isEmpty then .error .emptyDataset
    else .ok
      { kpis := kpisOfRoot (firstRowCells rows)
        revenueTrend := rows.filterMap revenueEntryOf
        weeklyConversations := rows.filterMap weeklyEntryOf
        sourceConversions := rows.filterMap sourceEntryOfRoot }

deriving instance DecidableEq for Except

/-- A JSON document, the result of `JSON.parse`. -/
inductive Json where
  | null
  | jbool (b : Bool)
  | num (q : ℚ)
  | str (s : String)
  | arr (xs : List Json)
  | obj (fields : List (String × Json))

/-- JSON insignificant whitespace (space, tab, line feed, carriage return). -/
def isJsonWs (c : Char) : Bool :=
  c == ' ' || c == '\t' || c == '\n' || c == '\r'

/-- Drop leading JSON whitespace. -/
def skipWs : List Char → List Char
  | [] => []
  | c :: cs => if isJsonWs c then skipWs cs else c :: cs

/-- Value of a hexadecimal digit, for `\u` escapes. -/
def hexVal (c : Char) : Option ℕ :=
  if '0' ≤ c ∧ c ≤ '9' then some (c.toNat - 48)
  else if 'a' ≤ c ∧ c ≤ 'f' then some (c.toNat - 87)
  else if 'A' ≤ c ∧ c ≤ 'F' then some (c.toNat - 55)
  else none

/-- Body of a JSON string, after the opening quote: characters up to the
closing quote, with the standard escapes.  Raw control characters are
rejected, as `JSON.parse` does.  A `\u` escape becomes the character with
that code (surrogate halves, which are not Lean scalar values, degrade to
the null character; no claim exercises them).  Fuel `input.length + 1`
suffices since every step consumes at least one character. -/
def parseStringBody : ℕ → List Char → Option (List Char × List Char)
  | 0, _ => none
  | _, [] => none
  | fuel + 1, c :: cs =>
    if c = '"' then some ([], cs)
    else if c = '\\' then
      match cs with
      | '"' :: cs2 => (parseStringBody fuel cs2).map fun p => ('"' :: p.1, p.2)
      | '\\' :: cs2 => (parseStringBody fuel cs2).map fun p => ('\\' :: p.1, p.2)
      | '/' :: cs2 => (parseStringBody fuel cs2).map fun p => ('/' :: p.1, p.2)
      | 'b' :: cs2 => (parseStringBody fuel cs2).map fun p => (Char.ofNat 8 :: p.1, p.2)
      | 'f' :: cs2 => (parseStringBody fuel cs2).map fun p => (Char.ofNat 12 :: p.1, p.2)
      | 'n' :: cs2 => (parseStringBody fuel cs2).map fun p => ('\n' :: p.1, p.2)
      | 'r' :: cs2 => (parseStringBody fuel cs2).map fun p => ('\r' :: p.1, p.2)
      | 't' :: cs2 => (parseStringBody fuel cs2).map fun p => ('\t' :: p.1, p.2)
      | 'u' :: h1 :: h2 :: h3 :: h4 :: cs2 =>
        match hexVal h1, hexVal h2, hexVal h3, hexVal h4 with
        | some a, some b, some d, some e =>
          (parseStringBody fuel cs2).map fun p =>
            (Char.ofNat (a * 4096 + b * 256 + d * 16 + e) :: p.1, p.2)
        | _, _, _, _ => none
      | _ => none
    else if c.toNat < 32 then none
    else (parseStringBody fuel cs).map fun p => (c :: p.1, p.2)

/-- Natural number denoted by a list of decimal digit characters. -/
def digitsToNat (ds : List Char) : ℕ :=
  ds.foldl (fun a c => a * 10 + (c.toNat - 48)) 0

/-- A JSON number literal: optional minus, integer part (`0` alone or a
nonzero-leading digit run), optional fraction, optional exponent — the
strict grammar that `JSON.parse` accepts.  Returns the denoted rational
and the unconsumed input. -/
def parseNumber (l : List Char) : Option (ℚ × List Char) :=
  let signed : Bool × List Char := match l with
    | '-' :: r => (true, r)
    | _ => (false, l)
  let intPart : Option (ℕ × List Char) := match signed.2 with
    | '0' :: r => some (0, r)
    | c :: r =>
      if c.isDigit then
        let p := r.span Char.isDigit
        some (digitsToNat (c :: p.1), p.2)
      else none
    | [] => none
  match intPart with
  | none => none
  | some (ip, rest1) =>
    let fracPart : Option (ℕ × ℕ × List Char) := match rest1 with
      | '.' :: r =>
        let p := r.span Char.isDigit
        if p.1.isEmpty then none else some (digitsToNat p.1, p.1.length, p.2)
      | _ => some (0, 0, rest1)
    match fracPart with
    | none => none
    | some (fp, fl, rest2) =>
      let expPart : Option (ℤ × List Char) := match rest2 with
        | 'e' :: '+' :: r =>
          let p := r.span Char.isDigit
          if p.1.isEmpty then none else some ((digitsToNat p.1 : ℤ), p.2)
        | 'e' :: '-' :: r =>
          let p := r.span Char.isDigit
          if p.1.isEmpty then none else some (-(digitsToNat p.1 : ℤ), p.2)
        | 'e' :: r =>
          let p := r.span Char.isDigit
          if p.1.isEmpty then none else some ((digitsToNat p.1 : ℤ), p.2)
        | 'E' :: '+' :: r =>
          let p := r.span Char.isDigit
          if p.1.isEmpty then none else some ((digitsToNat p.1 : ℤ), p.2)
        | 'E' :: '-' :: r =>
          let p := r.span Char.isDigit
          if p.1.isEmpty then none else some (-(digitsToNat p.1 : ℤ), p.2)
        | 'E' :: r =>
          let p := r.span Char.isDigit
          if p.1.isEmpty then none else some ((digitsToNat p.1 : ℤ), p.2)
        | _ => some (0, rest2)
      match expPart with
      | none => none
      | some (ex, rest3) =>
        let mantissa : ℤ := (ip * 10 ^ fl + fp : ℕ)
        let exp10 : ℤ := ex - (fl : ℤ)
        let v : ℚ :=
          if 0 ≤ exp10 then mkRat (mantissa * 10 ^ exp10.toNat) 1
          else mkRat mantissa (10 ^ (-exp10).toNat)
        some (if signed.1 then -v else v, rest3)

mutual

/-- A JSON value with leading whitespace, returning the unconsumed input.
Fuel decreases on every nested value or list step; since each such step
consumes at least one character, `2 * length + 4` fuel always suffices. -/
def parseValAux : ℕ → List Char → Option (Json × List Char)
  | 0, _ => none
  | fuel + 1, input =>
    match skipWs input with
    | [] => none
    | '"' :: rest =>
      match parseStringBody (rest.length + 1) rest with
      | some (cs, r) => some (.str ⟨cs⟩, r)
      | none => none
    | '[' :: rest =>
      match skipWs rest with
      | ']' :: r => some (.arr [], r)
      | l => match parseArrayElems fuel l with
        | some (xs, r) => some (.arr xs, r)
        | none => none
    | '{' :: rest =>
      match skipWs rest with
      | '}' :: r => some (.obj [], r)
      | l => match parseObjMembers fuel l with
        | some (ms, r) => some (.obj ms, r)
        | none => none
    | 't' :: 'r' :: 'u' :: 'e' :: rest => some (.jbool true, rest)
    | 'f' :: 'a' :: 'l' :: 's' :: 'e' :: rest => some (.jbool false, rest)
    | 'n' :: 'u' :: 'l' :: 'l' :: rest => some (.null, rest)
    | l =>
      match parseNumber l with
      | some (q, r) => some (.num q, r)
      | none => none

/-- One or more comma-separated array elements followed by `]`. -/
def parseArrayElems : ℕ → List Char → Option (List Json × List Char)
  | 0, _ => none
  | fuel + 1, input =>
    match parseValAux fuel input with
    | none => none
    | some (v, r1) =>
      match skipWs r1 with
      | ',' :: r2 =>
        match parseArrayElems fuel r2 with
        | some (xs, r3) => some (v :: xs, r3)
        | none => none
      | ']' :: r2 => some ([v], r2)
      | _ => none

/-- One or more comma-separated `"key": value` members followed by `}`. -/
def parseObjMembers : ℕ → List Char → Option (List (String × Json) × List Char)
  | 0, _ => none
  | fuel + 1, input =>
    match skipWs input with
    | '"' :: rest =>
      match parseStringBody (rest.length + 1) rest with
      | none => none
      | some (key, r1) =>
        match skipWs r1 with
        | ':' :: r2 =>
          match parseValAux fuel r2 with
          | none => none
          | some (v, r3) =>
            match skipWs r3 with
            | ',' :: r4 =>
              match parseObjMembers fuel r4 with
              | some (ms, r5) => some ((⟨key⟩, v) :: ms, r5)
              | none => none
            | '}' :: r4 => some ([(⟨key⟩, v)], r4)
            | _ => none
        | _ => none
    | _ => none

end

/-- Embedding of `JSON.parse(s)`: one JSON value, surrounded only by whitespace;
`none` models the SyntaxError throw. -/
def jsonParse (s : String) : Option Json :=
  match parseValAux (2 * s.length + 4) s.data with
  | some (v, rest) => if (skipWs rest).isEmpty then some v else none
  | none => none

/-- Embedding of `text.indexOf(c)`: index of the first occurrence, or `-1`. -/
def jsIndexOfChar (s : String) (c : Char) : ℤ :=
  match s.data.findIdx? (· == c) with
  | some i => (i : ℤ)
  | none => -1

/-- Embedding of `text.lastIndexOf(c)`: index of the last occurrence, or `-1`. -/
def jsLastIndexOfChar (s : String) (c : Char) : ℤ :=
  match s.data.reverse.findIdx? (· == c) with
  | some i => (s.length : ℤ) - 1 - (i : ℤ)
  | none => -1

/-- JavaScript `String.prototype.substring(st, en)`: both indices are
clamped into `[0, length]` and swapped when out of order. -/
def jsSubstring (s : String) (st en : ℤ) : String :=
  let n : ℤ := (s.length : ℤ)
  let st' := min (max st 0) n
  let en' := min (max en 0) n
  let lo := min st' en'
  let hi := max st' en'
  ⟨(s.data.drop lo.toNat).take (hi - lo).toNat⟩

/-- Embedding of `parseGoogleSheetsJSON` from src/utils.ts:
`const jsonString = text.substring(text.indexOf('(') + 1, text.lastIndexOf(')'));
return JSON.parse(jsonString);` with the catch converted into the
FormatError of the taxonomy (`throw new Error('Invalid data format from Google Sheets')`). -/
def parseGoogleSheetsJSON (text : String) : Except PipeError Json :=
  match jsonParse (jsSubstring text (jsIndexOfChar text '(' + 1)
                    (jsLastIndexOfChar text ')')) with
  | some v => .ok v
  | none => .error .format

/-- The substring the envelope heuristic hands to `JSON.parse`, stated
separately so theorems can speak about the extraction. -/
def extractEnvelope (text : String) : String :=
  jsSubstring text (jsIndexOfChar text '(' + 1) (jsLastIndexOfChar text ')')

/-- The DashboardState published by src/App.tsx (the `timeFilter` field is
pure presentation and omitted; `lastUpdated` timestamps are opaque). -/
structure DashState where
  kpis : Option KPIData
  revenueTrend : List RevenueTrend
  weeklyConversations : List WeeklyConversation
  sourceConversions : List SourceConversion
  loading : Bool
  error : Option String
  lastUpdated : Option ℕ
deriving DecidableEq

/-- The DashboardState of the stale root App.tsx. -/
structure DashStateRoot where
  kpis : Option KPIData
  revenueTrend : List RevenueTrend
  weeklyConversations : List WeeklyConversation
  sourceConversions : List SourceConversionRoot
  loading : Bool
  error : Option String
  lastUpdated : Option ℕ
deriving DecidableEq

/-- The message of the Error thrown for each failure kind in src/App.tsx
and src/utils.ts, as published by
`error: err instanceof Error ? err.message : 'Unknown sync error'`. -/
def errorMessageSrc : PipeError → String
  | .transport => "Data sync failed"
  | .format => "Invalid data format from Google Sheets"
  | .emptyDataset => "No dataset records found"

/-- The first setState of fetchData:
`setState(prev => ({ ...prev, loading: true, error: null }));` -/
def startFetchState (prev : DashState) : DashState :=
  { prev with loading := true, error := none }

/-- Same first setState in the stale root App.tsx. -/
def startFetchStateRoot (prev : DashStateRoot) : DashStateRoot :=
  { prev with loading := true, error := none }

/-- The final setState of fetchData in src/App.tsx: on success, publish
the fresh data with `loading: false` and a new `lastUpdated`; on any
caught error, only `loading: false` and the error message are written
over the previous state. -/
def completePassSrc (s : DashState) (outcome : Except PipeError NormResult)
    (now : ℕ) : DashState :=
  match outcome with
  | .ok r =>
    { s with kpis := some r.kpis, revenueTrend := r.revenueTrend,
             weeklyConversations := r.weeklyConversations,
             sourceConversions := r.sourceConversions,
             loading := false, lastUpdated := some now }
  | .error e => { s with loading := false, error := some (errorMessageSrc e) }

/-- The final setState of fetchData in the stale root App.tsx: success
publishes a whole fresh state (`error: null`); the catch writes the fixed
message `'Sync Error'` next to `loading: false`. -/
def completePassRoot (s : DashStateRoot) (outcome : Except PipeError NormResultRoot)
    (now : ℕ) : DashStateRoot :=
  match outcome with
  | .ok r =>
    { kpis := some r.kpis, revenueTrend := r.revenueTrend,
      weeklyConversations := r.weeklyConversations,
      sourceConversions := r.sourceConversions,
      loading := false, error := none, lastUpdated := some now }
  | .error _ => { s with loading := false, error := some "Sync Error" }

/-- One whole fetchData pass of src/App.tsx, from the state before the
call to the state published when the pass resolves with `outcome`. -/
def runPassSrc (prev : DashState) (outcome : Except PipeError NormResult)
    (now : ℕ) : DashState :=
  completePassSrc (startFetchState prev) outcome now

/-- One whole fetchData pass of the stale root App.tsx. -/
def runPassRoot (prev : DashStateRoot) (outcome : Except PipeError NormResultRoot)
    (now : ℕ) : DashStateRoot :=
  completePassRoot (startFetchStateRoot prev) outcome now

/-- The scheduler facts relevant to overlapping triggers: whether the
loading flag is set and how many fetch-parse-normalize passes are in
flight (issued and not yet resolved). -/
structure TriggerState where
  loading : Bool
  inFlight : ℕ
deriving DecidableEq

/-- The synchronous prefix of fetchData (both variants): set the loading
flag and issue the HTTP request — one more pass in flight.  fetchData
itself never consults the loading flag. -/
def fetchDataStart (s : TriggerState) : TriggerState :=
  { loading := true, inFlight := s.inFlight + 1 }

/-- Clicking the refresh control in src/App.tsx (`onClick={fetchData}`
with no `disabled` attribute, line 277): every click invokes fetchData,
loading or not. -/
def clickRefreshSrc (s : TriggerState) : TriggerState :=
  fetchDataStart s

/-- Clicking the refresh control in the stale root App.tsx
(`onClick={fetchData} disabled={state.loading}`, lines 196-199): a click
while the loading flag is set reaches a disabled button and does nothing. -/
def clickRefreshRoot (s : TriggerState) : TriggerState :=
  if s.loading then s else fetchDataStart s

/-- The numeric payload of a successful parse, `none` otherwise; lets
concrete parses be checked without decidable equality on whole documents. -/
def jsonNumOf : Except PipeError Json → Option ℚ
  | .ok (Json.num q) => some q
  | _ => none

/-- The spec's hand-built round-trip table
`{rows:[{c:[{v:10},{v:5},{v:2},{v:0.4},{v:1000},null,{v:"Jan"},{v:1000}]}]}`. -/
def tableC2 : RawData :=
  ⟨some ⟨some [some ⟨some [some ⟨.num 10⟩, some ⟨.num 5⟩, some ⟨.num 2⟩,
    some ⟨.num (mkRat 2 5)⟩, some ⟨.num 1000⟩, none, some ⟨.str "Jan"⟩,
    some ⟨.num 1000⟩]⟩]⟩⟩

/-- A one-row table exercising every consumed column offset (0-14), with
a zero in the active-client-load column (offset 14). -/
def rowFull : Row :=
  some ⟨some [some ⟨.num 8⟩, some ⟨.num 4⟩, some ⟨.num 2⟩,
    some ⟨.num (mkRat (-1) 2)⟩, some ⟨.num 500⟩, some ⟨.str "Feb"⟩,
    some ⟨.num 200⟩, some ⟨.str "W1"⟩, some ⟨.num 7⟩,
    some ⟨.str "LinkedIn"⟩, some ⟨.num 4⟩, some ⟨.num 2⟩,
    some ⟨.num (mkRat 1 2)⟩, some ⟨.num 300⟩, some ⟨.num 0⟩]⟩

/-- The one-row table built from `rowFull`. -/
def tableOneRow : RawData := ⟨some ⟨some [rowFull]⟩⟩

/-- What `normalizeSrc` produces on `tableOneRow`. -/
def resOneRow : NormResult :=
  { kpis := { totalOpportunities := 8, qualifiedConversations := 4,
              convertedClients := 2, conversionRate := mkRat 1 2,
              totalRevenue := 500, activeClientLoad := 1 }
    revenueTrend := [⟨"Feb", 200⟩]
    weeklyConversations := [⟨"W1", 7⟩]
    sourceConversions := [⟨"LinkedIn", 4, 2, mkRat 1 2, 300⟩] }

/-- A table whose rows array is present but empty. -/
def tableNoRows : RawData := ⟨some ⟨some []⟩⟩

/-- Cells whose revenue label (offset 5) holds the empty string while the
revenue column (offset 6) holds a valid number. -/
def cellsEmptyLabel : List Cell :=
  [none, none, none, none, none, some ⟨.str ""⟩, some ⟨.num 1000⟩]

/-- The row built from `cellsEmptyLabel`. -/
def rowEmptyLabel : Row := some ⟨some cellsEmptyLabel⟩

/-- Cells whose revenue label (offset 5) holds the number 7 and whose
revenue column (offset 6) holds the number 5. -/
def cellsNumLabel : List Cell :=
  [none, none, none, none, none, some ⟨.num 7⟩, some ⟨.num 5⟩]

/-- The row built from `cellsNumLabel`. -/
def rowNumLabel : Row := some ⟨some cellsNumLabel⟩

theorem jsAbs_nonneg (q : ℚ) : 0 ≤ jsAbs q := by
  unfold jsAbs
  cases h : Rat.blt q 0 with
  | false =>
    simp only [h, Bool.false_eq_true, if_false]
    exact le_of_not_lt fun hlt => by
      have hb : Rat.blt q 0 = true := hlt
      rw [hb] at h; cases h
  | true =>
    simp only [h, if_true]
    have hq : q < 0 := h
    linarith

theorem natDigitsAux_ne_nil (fuel n : ℕ) : natDigitsAux (fuel + 1) n ≠ [] := by
  unfold natDigitsAux
  split <;> simp

theorem natToString_data_ne_nil (n : ℕ) : (natToString n).data ≠ [] :=
  natDigitsAux_ne_nil n n

theorem intToString_data_ne_nil (i : ℤ) : (intToString i).data ≠ [] := by
  unfold intToString
  split
  · simp
  · exact natToString_data_ne_nil i.natAbs

theorem jsNumToString_ne_empty (q : ℚ) : jsNumToString q ≠ "" := by
  unfold jsNumToString
  split
  · exact fun h => intToString_data_ne_nil q.num (congrArg String.data h)
  · intro h
    have h2 := congrArg String.data h
    rw [String.data_append, String.data_append] at h2
    rcases List.append_eq_nil.mp h2 with ⟨h3, -⟩
    rcases List.append_eq_nil.mp h3 with ⟨h4, -⟩
    exact intToString_data_ne_nil q.num h4

theorem jsString_eq_empty_iff (v : JVal) : jsString v = "" ↔ v = .str "" := by
  cases v with
  | num q => simp [jsString, jsNumToString_ne_empty q]
  | str s => simp [jsString]
  | jbool b => cases b <;> simp [jsString]
  | null => simp [jsString]

theorem getStr_some_of_ne_null (v : JVal) (h : v ≠ .null) :
    getStr (some ⟨v⟩) = jsString v := by
  cases v with
  | num q => rfl
  | str s => rfl
  | jbool b => rfl
  | null => exact absurd rfl h

theorem sourceEntryOfSrc_rate_nonneg (row : Row) (sc : SourceConversion)
    (h : sourceEntryOfSrc row = some sc) : 0 ≤ sc.rate := by
  unfold sourceEntryOfSrc at h
  split at h
  · cases h
  · split at h
    · split at h
      · cases h
      · cases h
        exact jsAbs_nonneg _
    · cases h

/-- C1 counterexample: in the current src/App.tsx there is no in-flight
guard.  From an idle state, a first manual trigger sets the loading flag
and issues a fetch; a second trigger arriving before the first pass
completes issues a second fetch, so two pipeline executions are in
flight — the second call is not a no-op. -/
theorem c1_second_trigger_not_noop :
    (clickRefreshSrc (TriggerState.mk false 0)).loading = true
    ∧ (clickRefreshSrc (clickRefreshSrc (TriggerState.mk false 0))).inFlight = 2
    ∧ clickRefreshSrc (clickRefreshSrc (TriggerState.mk false 0))
        ≠ clickRefreshSrc (TriggerState.mk false 0) := by
  decide

/-- C1 (amended): fetchData itself never consults the loading flag, so in
the current src/App.tsx every manual trigger starts a new fetch, loading
or not; the trigger-during-Fetching no-op holds only in the stale
root-level App.tsx, whose refresh button is disabled while loading. -/
theorem c1_trigger_guard_amended :
    (∀ s : TriggerState, clickRefreshSrc s = fetchDataStart s)
    ∧ (∀ s : TriggerState, s.loading = true → clickRefreshRoot s = s) := by
  constructor
  · intro s
    rfl
  · intro s h
    unfold clickRefreshRoot
    rw [h]
    rfl

/-- C1 witness: the root-variant guard at a concrete loading state. -/
theorem c1_trigger_guard_witness :
    clickRefreshRoot (TriggerState.mk true 1) = TriggerState.mk true 1 :=
  c1_trigger_guard_amended.2 (TriggerState.mk true 1) rfl

/-- C2 counterexample: on the spec's hand-built table the summary comes
out as claimed, but the revenue series is empty — not one point
{periodLabel:"Jan", amount:1000} — because the code reads the period
label from offset 5 (the `null` cell) and the amount from offset 6 (the
cell holding "Jan"), while the table placed them at offsets 6 and 7. -/
theorem c2_roundtrip_counterexample :
    normalizeSrc tableC2 =
      .ok { kpis := { totalOpportunities := 10, qualifiedConversations := 5,
                      convertedClients := 2, conversionRate := mkRat 2 5,
                      totalRevenue := 1000, activeClientLoad := 1 },
            revenueTrend := [], weeklyConversations := [],
            sourceConversions := [] }
    ∧ ([] : List RevenueTrend) ≠ [{ month := "Jan", revenue := 1000 }] := by
  decide

/-- C2 (amended): normalizing the spec's hand-built single-row table
yields exactly the claimed summary record, but the revenue series (and
every other series) is empty, since the row's label/amount cells sit one
offset past the columns the normalizer reads. -/
theorem c2_roundtrip_amended :
    (normalizeSrc tableC2).toOption.map NormResult.kpis =
      some { totalOpportunities := 10, qualifiedConversations := 5,
             convertedClients := 2, conversionRate := mkRat 2 5,
             totalRevenue := 1000, activeClientLoad := 1 }
    ∧ (normalizeSrc tableC2).toOption.map NormResult.revenueTrend = some [] := by
  decide

/-- C3 counterexample: the input "1)" contains no '(' — hence no matching
parenthesis pair — yet parse succeeds with the JSON number 1, because
`substring(indexOf('(') + 1, lastIndexOf(')'))` degrades to
`substring(0, 1) = "1"`, which is valid JSON. -/
theorem c3_parse_counterexample :
    jsIndexOfChar "1)" '(' = -1
    ∧ jsonNumOf (parseGoogleSheetsJSON "1)") = some 1
    ∧ (parseGoogleSheetsJSON "1)").isOk = true := by
  decide

/-- C3 (amended): parse JSON-parses the substring between
`indexOf('(') + 1` and `lastIndexOf(')')` (with JavaScript substring
clamping) and fails with FormatError exactly when that extracted
substring is not valid JSON; an input without a matching parenthesis pair
fails only insofar as its clamped substring is invalid JSON. -/
theorem c3_parse_amended (text : String) :
    parseGoogleSheetsJSON text = .error .format
      ↔ jsonParse (extractEnvelope text) = none := by
  unfold parseGoogleSheetsJSON extractEnvelope
  split
  · next v h => simp [h]
  · next h => simp [h]

/-- C4: for every table whose rows array exists and is nonempty, both
normalizers succeed (no cell shape can make them fail), and getNum takes
a cell's value exactly when its raw value is a number, resolving every
other shape — absent cell, null, string, boolean — to 0, never through
string-to-number parsing. -/
theorem c4_normalize_total :
    (∀ (rd : RawData) (rows : List Row), rowsOf rd = some rows → rows ≠ [] →
      (normalizeSrc rd).isOk = true ∧ (normalizeRoot rd).isOk = true)
    ∧ (∀ q : ℚ, getNum (some ⟨JVal.num q⟩) = q)
    ∧ (∀ cell : Cell, (∃ q : ℚ, cell = some ⟨JVal.num q⟩) ∨ getNum cell = 0)
    ∧ (∀ s : String, getNum (some ⟨JVal.str s⟩) = 0) := by
  refine ⟨?_, ?_, ?_, ?_⟩
  · intro rd rows h1 h2
    cases rows with
    | nil => exact absurd rfl h2
    | cons a t =>
      constructor
      · unfold normalizeSrc
        rw [h1]
        rfl
      · unfold normalizeRoot
        rw [h1]
        rfl
  · intro q
    rfl
  · intro cell
    match cell with
    | some ⟨.num q⟩ => exact Or.inl ⟨q, rfl⟩
    | some ⟨.str s⟩ => exact Or.inr rfl
    | some ⟨.jbool b⟩ => exact Or.inr rfl
    | some ⟨.null⟩ => exact Or.inr rfl
    | none => exact Or.inr rfl
  · intro s
    rfl

/-- C4 witness: both normalizers succeed on a concrete one-row table. -/
theorem c4_normalize_total_witness :
    (normalizeSrc tableOneRow).isOk = true
    ∧ (normalizeRoot tableOneRow).isOk = true :=
  c4_normalize_total.1 tableOneRow [rowFull] rfl (by simp)

/-- C5: in the current normalizer the summary's activeClientLoad is 1
whenever the coerced value of the first row's offset-14 cell is 0 (in
particular when the cell is missing), and the coerced value itself
otherwise — the `getNum(cells[14]) || 1` fallback. -/
theorem c5_activeClientLoad_fallback :
    ∀ (rd : RawData) (rows : List Row) (res : NormResult),
      rowsOf rd = some rows → normalizeSrc rd = .ok res →
      ((getNum (cellAt (firstRowCells rows) 14) = 0
          ∨ cellAt (firstRowCells rows) 14 = none) →
        res.kpis.activeClientLoad = 1)
      ∧ (getNum (cellAt (firstRowCells rows) 14) ≠ 0 →
        res.kpis.activeClientLoad = getNum (cellAt (firstRowCells rows) 14)) := by
  intro rd rows res h1 h2
  unfold normalizeSrc at h2
  rw [h1] at h2
  cases rows with
  | nil => exact Except.noConfusion h2
  | cons a t =>
    have h3 := Except.ok.inj h2
    subst h3
    constructor
    · intro hz
      rcases hz with hz | hz
      · simp [kpisOfSrc, hz]
      · have hg : getNum (cellAt (firstRowCells (a :: t)) 14) = 0 := by
          rw [hz]
          rfl
        simp [kpisOfSrc, hg]
    · intro hnz
      simp [kpisOfSrc, hnz]

/-- C5 witness: the concrete one-row table has 0 at offset 14, and its
summary's activeClientLoad is 1. -/
theorem c5_activeClientLoad_fallback_witness :
    resOneRow.kpis.activeClientLoad = 1 :=
  (c5_activeClientLoad_fallback tableOneRow [rowFull] resOneRow rfl
      (by decide)).1 (Or.inl (by decide))

/-- C6: when the rows array is absent or empty, both normalizers fail
with EmptyDatasetError, producing no summary record and no series. -/
theorem c6_empty_dataset :
    ∀ rd : RawData, (rowsOf rd = none ∨ rowsOf rd = some []) →
      normalizeSrc rd = .error .emptyDataset
      ∧ normalizeRoot rd = .error .emptyDataset := by
  intro rd h
  rcases h with h | h
  · constructor
    · unfold normalizeSrc
      rw [h]
    · unfold normalizeRoot
      rw [h]
  · constructor
    · unfold normalizeSrc
      rw [h]
      rfl
    · unfold normalizeRoot
      rw [h]
      rfl

/-- C6 witness: a concrete table with an empty rows array. -/
theorem c6_empty_dataset_witness :
    normalizeSrc tableNoRows = .error .emptyDataset
    ∧ normalizeRoot tableNoRows = .error .emptyDataset :=
  c6_empty_dataset tableNoRows (Or.inr rfl)

/-- C7: a row whose revenue period-label (offset 5) coerces to the empty
string contributes no revenue entry, and one whose activity period-label
(offset 7) coerces to the empty string contributes no activity entry,
whatever the numeric columns hold; and both normalizers build their
series exactly from these per-row contributions, so such a row appends
nothing to the published series. -/
theorem c7_empty_label_no_entry :
    (∀ (row : Row) (cells : List Cell), rowCellsOpt row = some cells →
      getStr (cellAt cells 5) = "" → revenueEntryOf row = none)
    ∧ (∀ (row : Row) (cells : List Cell), rowCellsOpt row = some cells →
      getStr (cellAt cells 7) = "" → weeklyEntryOf row = none)
    ∧ (∀ (rd : RawData) (rows : List Row) (res : NormResult),
      rowsOf rd = some rows → normalizeSrc rd = .ok res →
      res.revenueTrend = rows.filterMap revenueEntryOf
      ∧ res.weeklyConversations = rows.filterMap weeklyEntryOf)
    ∧ (∀ (rd : RawData) (rows : List Row) (res : NormResultRoot),
      rowsOf rd = some rows → normalizeRoot rd = .ok res →
      res.revenueTrend = rows.filterMap revenueEntryOf
      ∧ res.weeklyConversations = rows.filterMap weeklyEntryOf) := by
  refine ⟨?_, ?_, ?_, ?_⟩
  · intro row cells h h5
    unfold revenueEntryOf
    rw [h]
    split
    · rfl
    · next cells2 heq =>
      injection heq with hc
      subst hc
      split
      · rw [if_pos h5]
      · rfl
  · intro row cells h h7
    unfold weeklyEntryOf
    rw [h]
    split
    · rfl
    · next cells2 heq =>
      injection heq with hc
      subst hc
      split
      · rw [if_pos h7]
      · rfl
  · intro rd rows res h1 h2
    unfold normalizeSrc at h2
    rw [h1] at h2
    cases rows with
    | nil => exact Except.noConfusion h2
    | cons a t =>
      have h3 := Except.ok.inj h2
      subst h3
      exact ⟨rfl, rfl⟩
  · intro rd rows res h1 h2
    unfold normalizeRoot at h2
    rw [h1] at h2
    cases rows with
    | nil => exact Except.noConfusion h2
    | cons a t =>
      have h3 := Except.ok.inj h2
      subst h3
      exact ⟨rfl, rfl⟩

/-- C7 witness: a concrete row with an empty-string revenue label and the
number 1000 in the revenue column contributes no revenue entry. -/
theorem c7_empty_label_no_entry_witness :
    revenueEntryOf rowEmptyLabel = none :=
  c7_empty_label_no_entry.1 rowEmptyLabel cellsEmptyLabel rfl (by decide)

/-- C8: when a pass resolves with any pipeline error, the published state
of either variant has the loading flag cleared and a non-empty error
message, and all five data fields — summary, revenue series, activity
series, source breakdown, lastUpdated — are exactly those of the state
before the pass. -/
theorem c8_failure_preserves_data :
    ∀ (prev : DashState) (prevR : DashStateRoot) (e : PipeError) (now : ℕ),
      ((runPassSrc prev (.error e) now).loading = false
        ∧ (∃ m, (runPassSrc prev (.error e) now).error = some m ∧ m ≠ "")
        ∧ (runPassSrc prev (.error e) now).kpis = prev.kpis
        ∧ (runPassSrc prev (.error e) now).revenueTrend = prev.revenueTrend
        ∧ (runPassSrc prev (.error e) now).weeklyConversations
            = prev.weeklyConversations
        ∧ (runPassSrc prev (.error e) now).sourceConversions
            = prev.sourceConversions
        ∧ (runPassSrc prev (.error e) now).lastUpdated = prev.lastUpdated)
      ∧ ((runPassRoot prevR (.error e) now).loading = false
        ∧ (∃ m, (runPassRoot prevR (.error e) now).error = some m ∧ m ≠ "")
        ∧ (runPassRoot prevR (.error e) now).kpis = prevR.kpis
        ∧ (runPassRoot prevR (.error e) now).revenueTrend = prevR.revenueTrend
        ∧ (runPassRoot prevR (.error e) now).weeklyConversations
            = prevR.weeklyConversations
        ∧ (runPassRoot prevR (.error e) now).sourceConversions
            = prevR.sourceConversions
        ∧ (runPassRoot prevR (.error e) now).lastUpdated = prevR.lastUpdated) := by
  intro prev prevR e now
  refine ⟨⟨rfl, ⟨errorMessageSrc e, rfl, ?_⟩, rfl, rfl, rfl, rfl, rfl⟩,
          ⟨rfl, ⟨"Sync Error", rfl, by decide⟩, rfl, rfl, rfl, rfl, rfl⟩⟩
  cases e <;> decide

/-- C9: in the current normalizer, every successful pass has a
non-negative conversionRate and non-negative winRates in every
source-breakdown entry, because `Math.abs` is applied to both rate cells
before use. -/
theorem c9_rates_nonneg :
    ∀ (rd : RawData) (res : NormResult), normalizeSrc rd = .ok res →
      0 ≤ res.kpis.conversionRate
      ∧ ∀ sc ∈ res.sourceConversions, 0 ≤ sc.rate := by
  intro rd res h
  unfold normalizeSrc at h
  rcases h1 : rowsOf rd with _ | rows
  · rw [h1] at h
    exact Except.noConfusion h
  · rw [h1] at h
    cases rows with
    | nil => exact Except.noConfusion h
    | cons a t =>
      have h3 := Except.ok.inj h
      subst h3
      constructor
      · exact jsAbs_nonneg _
      · intro sc hsc
        rcases List.mem_filterMap.mp hsc with ⟨row, -, hrow⟩
        exact sourceEntryOfSrc_rate_nonneg row sc hrow

/-- C9 witness: the concrete one-row table (whose raw rate cell holds
-1/2) yields a non-negative conversionRate. -/
theorem c9_rates_nonneg_witness :
    0 ≤ resOneRow.kpis.conversionRate :=
  (c9_rates_nonneg tableOneRow resOneRow (by decide)).1

/-- C10 counterexample: the empty string is a non-null label value whose
string representation is empty, so a row holding it at the revenue label
offset (with a valid number 1000 in the revenue column) contributes no
entry — the claim's "non-null value of any type qualifies the row" fails
at {v:""}. -/
theorem c10_label_coercion_counterexample :
    getStr (some ⟨JVal.str ""⟩) = ""
    ∧ rowCellsOpt rowEmptyLabel = some cellsEmptyLabel
    ∧ getNum (cellAt cellsEmptyLabel 6) = 1000
    ∧ revenueEntryOf rowEmptyLabel = none := by
  decide

/-- C10 (amended): label cells need not hold strings — any non-null value
whose JavaScript string representation is non-empty (in particular every
number, whose representation is never empty) qualifies the row, the
coerced label being String(v); only a value whose representation is the
empty string (the empty string itself) fails to qualify. -/
theorem c10_label_coercion_amended :
    (∀ q : ℚ, jsString (JVal.num q) ≠ "")
    ∧ (∀ (v : JVal) (q : ℚ) (cells : List Cell),
        v ≠ JVal.null → jsString v ≠ "" →
        cellAt cells 5 = some ⟨v⟩ → cellAt cells 6 = some ⟨JVal.num q⟩ →
        revenueEntryOf (some ⟨some cells⟩) = some ⟨jsString v, q⟩)
    ∧ (∀ (v : JVal) (q : ℚ) (cells : List Cell),
        v ≠ JVal.null → jsString v ≠ "" →
        cellAt cells 9 = some ⟨v⟩ → cellAt cells 12 = some ⟨JVal.num q⟩ →
        sourceEntryOfSrc (some ⟨some cells⟩) =
          some ⟨jsString v, getNum (cellAt cells 10), getNum (cellAt cells 11),
                jsAbs q, getNum (cellAt cells 13)⟩) := by
  refine ⟨fun q => jsNumToString_ne_empty q, ?_, ?_⟩
  · intro v q cells hv hne h5 h6
    unfold revenueEntryOf
    simp only [rowCellsOpt, Option.bind, h6, h5]
    rw [getStr_some_of_ne_null v hv, if_neg hne]
  · intro v q cells hv hne h9 h12
    unfold sourceEntryOfSrc
    simp only [rowCellsOpt, Option.bind, h12, h9]
    rw [getStr_some_of_ne_null v hv, if_neg hne]

/-- C10 witness: a row whose label cell holds the number 7 qualifies,
with the label coerced to the string "7". -/
theorem c10_label_coercion_witness :
    revenueEntryOf rowNumLabel = some ⟨jsString (JVal.num 7), 5⟩ :=
  c10_label_coercion_amended.2.1 (JVal.num 7) 5 cellsNumLabel
    (by decide) (by decide) (by decide) (by decide)
